import Mathlib

/-!
Verification of the credential/session-trust core of vikash-parashar/go-server
against its specification.

The Go source is shallowly embedded: time instants are `Int` (Unix seconds),
Go strings are Lean `String` (byte content is irrelevant to the claims, all
concrete inputs are ASCII), bytes are `Fin 256`, and the jwt-go library's
HMAC signing is modelled symbolically: a signature value is the constructor
`Sig.hmac alg payload key`, and the library's `Verify` for an HMAC method
succeeds exactly when the supplied key is a byte-slice key and the token's
signature equals the mac of the token's own declared algorithm and payload
under that key (this is exactly dgrijalva/jwt-go v3 behaviour: the keyfunc
result is type-asserted to `[]byte`, and the declared `alg` header selects
the verification method; claim validation `verifyExp` accepts when
`now <= exp`, or when `exp == 0` since an unset expiry is not required).
-/

namespace GoServer

/-- models.User, as used by the handlers and jwt_util.go. -/
structure User where
  ID : Int
  Email : String
  Role : String
  Password : String
deriving DecidableEq

/-- utils.Claims from jwt_util.go: UserId, UserEmail, UserRole plus
jwt.StandardClaims (of which only ExpiresAt is ever set). -/
structure Claims where
  UserId : Int
  UserEmail : String
  UserRole : String
  ExpiresAt : Int
deriving DecidableEq

/-- The JWT signing algorithms relevant here, as declared in a token's
header. `none` is the unsigned "none" algorithm. -/
inductive Alg where
  | HS256
  | HS384
  | HS512
  | none
deriving DecidableEq

/-- Symbolic signature values: `hmac a c k` is the HMAC mac of payload `c`
under key bytes `k` with hash chosen by `a`; `blank` is the empty signature
carried by alg-"none" tokens; `other` covers any other byte string. -/
inductive Sig where
  | hmac (alg : Alg) (payload : Claims) (key : String)
  | blank
  | other (n : Nat)
deriving DecidableEq

/-- A parsed JWT: the header's declared algorithm, the decoded claims and
the signature segment. Serialization between this structure and the compact
string form is jwt-go's bijective encoding and is elided. -/
structure Token where
  alg : Alg
  payload : Claims
  sig : Sig
deriving DecidableEq

/-- The dynamic type of the value a jwt-go keyfunc returns
(Go `interface{}`): a Go `string` or a Go `[]byte`. -/
inductive KeyVal where
  | str (s : String)
  | bytes (s : String)
deriving DecidableEq

/-- jwt-go signature verification for a token with declared algorithm `alg`:
HMAC methods demand a `[]byte` key (any other dynamic type is
ErrInvalidKeyType) and then compare the signature against the mac under the
declared algorithm; the "none" method rejects every key other than the
special unsafe marker, which this codebase never uses. -/
def sigValid (alg : Alg) (payload : Claims) (key : KeyVal) (sig : Sig) : Bool :=
  match key with
  | .str _ => false
  | .bytes k =>
    match alg with
    | .none => false
    | a => decide (sig = Sig.hmac a payload k)

/-- jwt-go StandardClaims.Valid restricted to what this code sets: the exp
check `verifyExp` passes when `now <= exp`, and an `exp` of 0 counts as
unset and is accepted because expiry is not a required claim. -/
def claimsValid (c : Claims) (now : Int) : Bool :=
  decide (c.ExpiresAt = 0) || decide (now ≤ c.ExpiresAt)

/-- jwt-go Parse/ParseWithClaims outcome for an already-split token: the
result is valid (token.Valid with nil error) iff the signature verifies
under the key returned by the keyfunc and the claims pass validation. -/
def parseToken (keyfunc : Token → KeyVal) (t : Token) (now : Int) : Bool :=
  sigValid t.alg t.payload (keyfunc t) t.sig && claimsValid t.payload now

/-- GetSecretKey: `jwtSecret = os.Getenv("JWT_SECRET")`. `os.Getenv`
returns the empty string when the variable is unset; no emptiness or length
check is performed. -/
def getSecretKey (envJwtSecret : Option String) : String :=
  envJwtSecret.getD ""

/-- GenerateJWTToken: builds Claims from the user with
ExpiresAt = now + 1 hour, signs with HS256 under `[]byte(jwtSecret)`.
Signing never fails in the model (HMAC signing of a marshallable struct
succeeds for any key, including the empty one). -/
def generateJWTToken (jwtSecret : String) (user : User) (now : Int) : Token :=
  let c : Claims :=
    { UserId := user.ID, UserEmail := user.Email, UserRole := user.Role
      ExpiresAt := now + 3600 }
  { alg := .HS256, payload := c, sig := .hmac .HS256 c jwtSecret }

/-- VerifyJWTToken: ParseWithClaims with keyfunc returning
`[]byte(jwtSecret)`; returns the decoded claims and ok = token.Valid with
no error. -/
def verifyJWTToken (jwtSecret : String) (t : Token) (now : Int) : Claims × Bool :=
  (t.payload, parseToken (fun _ => KeyVal.bytes jwtSecret) t now)

/-- ValidateJWTToken: jwt.Parse with a keyfunc returning `jwtSecret` — the
Go `string` itself, not `[]byte(jwtSecret)`. Returns the token when parsing
and verification succeed, `none` when jwt.Parse returns an error. -/
def validateJWTToken (jwtSecret : String) (t : Token) (now : Int) : Option Token :=
  if parseToken (fun _ => KeyVal.str jwtSecret) t now then some t else none

/-- ExtractClaims: reads the Authorization header; returns (nil, false) on
an empty header; otherwise slices off the first 7 bytes
(`tokenString[len("Bearer "):]`, which panics when the header is shorter
than 7 — modelled as `.error ()`), feeds the remainder to ValidateJWTToken
and returns the claims when the token is valid. The compact-form parser of
jwt-go is abstracted as the `parse` argument (`none` = malformed). -/
def extractClaims (parse : String → Option Token) (jwtSecret : String)
    (now : Int) (header : String) : Except Unit (Option Claims) :=
  if header = "" then .ok none
  else if 7 ≤ header.length then
    match parse (header.toList.drop 7).asString with
    | Option.none => .ok none
    | some t =>
      match validateJWTToken jwtSecret t now with
      | Option.none => .ok none
      | some tok => .ok (some tok.payload)
  else .error ()

/-- IsTokenExpired from jwt_util.go: computes `now - 1h` and reports the
token expired iff its expiry is strictly before that instant
(`tokenExpiry.Before(time.Now().Add(-1h))`). -/
def isTokenExpired (tokenExpiry now : Int) : Bool :=
  decide (tokenExpiry < now - 3600)

/-- Modelled from the spec: utils.HashPassword is not under src/. §4.1 Hash
applies a one-way hash; its output content is opaque to every claim here,
so the hash is kept symbolic as a tagged copy of the plaintext (one-way-ness
is never used by a claim, only which value the handlers store and compare). -/
def hashPassword (plaintext : String) : String :=
  "bcrypt$" ++ plaintext

/-- Modelled from the spec: utils.VerifyPassword is not under src/. §4.1
Verify(plaintext, storedHash) returns true iff the stored hash matches the
recomputed hash of the plaintext, and never raises on mismatch. -/
def verifyPassword (plaintext storedHash : String) : Bool :=
  decide (storedHash = hashPassword plaintext)

/-- The per-user durable state the reset flow touches in the external
Credential Store (§3): the optional reset-token/expiry pair (both set or
both absent) and the password hash. -/
structure ResetStore where
  resetToken : Option (String × Int)
  password : String
deriving DecidableEq

/-- Modelled from the spec: db.VerifyResetToken is not under src/. §6
GetUserByResetToken looks the user up by the literal token value and §4.4
Validate fails (not found) if absent and fails (TokenExpired) if the stored
expiry is at or before current time; so it succeeds iff the stored token
equals the presented one and `now < expiry`. -/
def verifyResetToken (st : ResetStore) (tok : String) (now : Int) : Bool :=
  match st.resetToken with
  | some (t, exp) => decide (t = tok) && decide (now < exp)
  | none => false

/-- Modelled from the spec: db.ClearResetToken is not under src/. §6
ClearResetToken(userId) clears the stored token and expiry. -/
def clearResetToken (st : ResetStore) : ResetStore :=
  { st with resetToken := none }

/-- The ResetPassword handler (handlers/user_handlers.go): missing token →
400; failed VerifyResetToken → 401; then hash the new password, update the
stored password, and only then clear the reset token, returning after the
first failing step. The fallibility of the hash and the two store writes is
given by the `hashOk`, `updOk`, `clearOk` oracles (§4.1 HashingFailure, §6
`ok|err` results). Returns the resulting store state and whether the
handler reported success. -/
def resetPassword (st : ResetStore) (tok newPw : String) (now : Int)
    (hashOk updOk clearOk : Bool) : ResetStore × Bool :=
  if tok = "" then (st, false)
  else if verifyResetToken st tok now = false then (st, false)
  else if hashOk = false then (st, false)
  else if updOk = false then (st, false)
  else
    let st1 : ResetStore := { st with password := hashPassword newPw }
    if clearOk = false then (st1, false)
    else (clearResetToken st1, true)

/-- The Login handler's outcome (HTTP status, message) as a function of the
store lookup result for the submitted email and the submitted password:
unknown email → 401 "Incorrect email or password"; known email with
non-matching password → 401 "Incorrect password"; otherwise 200. -/
def login (userLookup : Option User) (password : String) : Nat × String :=
  match userLookup with
  | none => (401, "Incorrect email or password")
  | some u =>
    if verifyPassword password u.Password = false then (401, "Incorrect password")
    else (200, "Login successful")

/-- The sign-up request body bound by the SignUp handler. -/
structure SignupRequest where
  FirstName : String
  LastName : String
  Phone : String
  Email : String
  Password : String
deriving DecidableEq

/-- The SignUp handler (handlers/user_handlers.go): rejects when a user
with the email already exists; assigns Role "admin" exactly to the email
"gowithvikash@gmail.com" and "general" otherwise; hashes the password and
registers the user, each step fallible via an oracle. Returns the stored
user on success. The new user's ID is assigned by the store at
registration, so it is a parameter. -/
def signUp (existingUser : Option User) (req : SignupRequest)
    (hashOk registerOk : Bool) (newId : Int) : Option User :=
  match existingUser with
  | some _ => none
  | none =>
    let role := if req.Email = "gowithvikash@gmail.com" then "admin" else "general"
    if hashOk = false then none
    else if registerOk = false then none
    else some { ID := newId, Email := req.Email, Role := role
                Password := hashPassword req.Password }

/-- The URL-safe base64 alphabet of Go's base64.URLEncoding. -/
def b64Alphabet : List Char :=
  "ABCDEFGHIJKLMNOPQRSTUVWXYZabcdefghijklmnopqrstuvwxyz0123456789-_".toList

/-- The alphabet character of a 6-bit value. -/
def sx (n : Nat) : Char :=
  b64Alphabet.getD (n % 64) 'A'

/-- The 6-bit value of an alphabet character (list index). -/
def ix (c : Char) : Nat :=
  b64Alphabet.indexOf c

/-- base64.URLEncoding.EncodeToString on a byte list: 3 bytes per 4 output
characters, '='-padded. -/
def encodeB64 : List (Fin 256) → List Char
  | [] => []
  | [b0] => [sx (b0.1 / 4), sx (b0.1 % 4 * 16), '=', '=']
  | [b0, b1] => [sx (b0.1 / 4), sx (b0.1 % 4 * 16 + b1.1 / 16), sx (b1.1 % 16 * 4), '=']
  | b0 :: b1 :: b2 :: rest =>
    sx (b0.1 / 4) :: sx (b0.1 % 4 * 16 + b1.1 / 16) ::
      sx (b1.1 % 16 * 4 + b2.1 / 64) :: sx (b2.1 % 64) :: encodeB64 rest

/-- The matching base64 decoder, yielding byte values; '=' padding closes
the final quantum. -/
def decodeB64 : List Char → List Nat
  | c0 :: c1 :: c2 :: c3 :: rest =>
    if c2 = '=' then [ix c0 * 4 + ix c1 / 16]
    else if c3 = '=' then [ix c0 * 4 + ix c1 / 16, ix c1 % 16 * 16 + ix c2 / 4]
    else (ix c0 * 4 + ix c1 / 16) :: (ix c1 % 16 * 16 + ix c2 / 4) ::
      (ix c2 % 4 * 64 + ix c3) :: decodeB64 rest
  | _ => []

/-- GeneratePasswordResetToken: concatenates the bytes of
`user.Email + time.Now().String()` with 32 random bytes and base64url
encodes the result. The email bytes, timestamp-string bytes and random
bytes are the three arguments. -/
def generatePasswordResetToken (emailBytes nowStrBytes randomBytes : List (Fin 256)) :
    List Char :=
  encodeB64 (emailBytes ++ nowStrBytes ++ randomBytes)

lemma ix_sx (n : Nat) : ix (sx n) = n % 64 := by
  have hfin : ∀ m : Fin 64, ix (sx m.1) = m.1 := by decide
  have hmod : sx n = sx (n % 64) := by
    unfold sx
    have : n % 64 % 64 = n % 64 := by omega
    rw [this]
  rw [hmod]
  exact hfin ⟨n % 64, Nat.mod_lt n (by norm_num)⟩

lemma sx_ne_pad (n : Nat) : sx n ≠ '=' := by
  have hfin : ∀ m : Fin 64, sx m.1 ≠ '=' := by decide
  have hmod : sx n = sx (n % 64) := by
    unfold sx
    have : n % 64 % 64 = n % 64 := by omega
    rw [this]
  rw [hmod]
  exact hfin ⟨n % 64, Nat.mod_lt n (by norm_num)⟩

lemma decodeB64_encodeB64 (l : List (Fin 256)) :
    decodeB64 (encodeB64 l) = l.map Fin.val := by
  induction l using encodeB64.induct with
  | case1 => rfl
  | case2 b0 =>
    have h0 := b0.isLt
    simp [encodeB64, decodeB64, ix_sx, sx_ne_pad, List.cons.injEq]
    omega
  | case3 b0 b1 =>
    have h0 := b0.isLt
    have h1 := b1.isLt
    simp [encodeB64, decodeB64, ix_sx, sx_ne_pad, List.cons.injEq]
    omega
  | case4 b0 b1 b2 rest ih =>
    have h0 := b0.isLt
    have h1 := b1.isLt
    have h2 := b2.isLt
    simp [encodeB64, decodeB64, ix_sx, sx_ne_pad, ih, List.cons.injEq]
    omega

/-- C1: the claim states IsTokenExpired(t) is true exactly when t is at or
before `now`. The code computes `t < now - 1h` instead: an expiry one
second in the past (t = 9999, now = 10000) is not reported expired, while
an expiry more than an hour in the past is. This evaluates the embedded
code at the failing input. -/
theorem c1_isTokenExpired_code_bug :
    isTokenExpired 9999 10000 = false ∧ isTokenExpired 6399 10000 = true := by
  decide

/-- C2: round-trip — verifying a token produced by GenerateJWTToken before
its expiry returns ok = true and claims whose UserId, UserEmail, UserRole
equal the issuing user's fields, with ExpiresAt = issuance time + 1 hour. -/
theorem c2_jwt_roundtrip (secret : String) (u : User) (now now' : Int)
    (h : now' ≤ now + 3600) :
    verifyJWTToken secret (generateJWTToken secret u now) now' =
      ({ UserId := u.ID, UserEmail := u.Email, UserRole := u.Role,
         ExpiresAt := now + 3600 }, true) := by
  simp [verifyJWTToken, generateJWTToken, parseToken, sigValid, claimsValid]
  omega

theorem c2_jwt_roundtrip_witness :
    (10 : Int) ≤ 0 + 3600 ∧
      verifyJWTToken "s" (generateJWTToken "s" ⟨1, "a@x.com", "general", "pw"⟩ 0) 10 =
        ({ UserId := 1, UserEmail := "a@x.com", UserRole := "general",
           ExpiresAt := 0 + 3600 }, true) :=
  ⟨by decide, c2_jwt_roundtrip "s" ⟨1, "a@x.com", "general", "pw"⟩ 0 10 (by decide)⟩

/-- C3: the claim states ExtractClaims never performs an out-of-range
slice even for non-empty headers shorter than the scheme prefix. The code
slices `tokenString[7:]` after checking only for emptiness, so the
non-empty 3-byte Authorization header "abc" panics (modelled `.error ()`),
for every underlying token parser, secret and clock. -/
theorem c3_extractClaims_short_header_panics (parse : String → Option Token)
    (secret : String) (now : Int) :
    extractClaims parse secret now "abc" = Except.error () := by
  rfl

/-- C4 counterexample: a token whose header declares HS384 and whose
signature is the valid HS384 mac of its payload under the process secret
is accepted by VerifyJWTToken (ok = true), contradicting the claim that
any algorithm other than HS256 is rejected. -/
theorem c4_counterexample :
    (verifyJWTToken "s"
      ⟨Alg.HS384, ⟨1, "a@x.com", "general", 3600⟩,
        Sig.hmac Alg.HS384 ⟨1, "a@x.com", "general", 3600⟩ "s"⟩ 0).2 = true := by
  decide

/-- C4 amended: VerifyJWTToken's keyfunc never inspects the declared
algorithm, so verification accepts exactly the tokens of any HMAC-family
algorithm (HS256, HS384 or HS512) whose signature is valid under the
process secret for that declared algorithm and whose expiry has not
passed; only the unsigned "none" algorithm is rejected unconditionally. -/
theorem c4_verify_accepts_any_hmac_alg (secret : String) (t : Token) (now : Int) :
    (verifyJWTToken secret t now).2 = true ↔
      t.alg ≠ Alg.none ∧ t.sig = Sig.hmac t.alg t.payload secret ∧
        (t.payload.ExpiresAt = 0 ∨ now ≤ t.payload.ExpiresAt) := by
  obtain ⟨alg, payload, sig⟩ := t
  cases alg <;>
    simp [verifyJWTToken, parseToken, sigValid, claimsValid]

/-- C5 counterexample: with token "T" stored unexpired, a ResetPassword
request for "T" reaches a successful validation, the password update then
fails, the handler returns without clearing — and a second validation of
the same token string still succeeds, contradicting single-use. -/
theorem c5_counterexample :
    verifyResetToken ⟨some ("T", 100), "old"⟩ "T" 1 = true ∧
      (resetPassword ⟨some ("T", 100), "old"⟩ "T" "new" 1 true false true).2 = false ∧
      verifyResetToken
        (resetPassword ⟨some ("T", 100), "old"⟩ "T" "new" 1 true false true).1
        "T" 1 = true := by
  decide

/-- C5 amended: on the fully successful path (hash, password update and
clear all succeed) ResetPassword clears the stored token after updating
the password, so a second validation of the same token string fails at any
later time; but on paths where hashing or the password update fails after
a successful validation the token remains stored and validatable. -/
theorem c5_success_path_single_use (st : ResetStore) (tok newPw : String)
    (now now' : Int)
    (h : (resetPassword st tok newPw now true true true).2 = true) :
    verifyResetToken (resetPassword st tok newPw now true true true).1
      tok now' = false := by
  unfold resetPassword at h ⊢
  by_cases h1 : tok = ""
  · rw [if_pos h1] at h
    simp at h
  · by_cases h2 : verifyResetToken st tok now = false
    · rw [if_neg h1, if_pos h2] at h
      simp at h
    · rw [if_neg h1, if_neg h2]
      simp [clearResetToken, verifyResetToken]

theorem c5_success_path_single_use_witness :
    (resetPassword ⟨some ("T", 100), "old"⟩ "T" "new" 1 true true true).2 = true ∧
      verifyResetToken
        (resetPassword ⟨some ("T", 100), "old"⟩ "T" "new" 1 true true true).1
        "T" 2 = false :=
  ⟨by decide, c5_success_path_single_use ⟨some ("T", 100), "old"⟩ "T" "new" 1 2 (by decide)⟩

/-- C6 counterexample: with JWT_SECRET unset, GetSecretKey yields the
empty string and, far from refusing to operate, GenerateJWTToken issues a
token that VerifyJWTToken accepts (ok = true), contradicting the claim
that both return failure on an empty secret. -/
theorem c6_counterexample :
    getSecretKey Option.none = "" ∧
      (verifyJWTToken (getSecretKey Option.none)
        (generateJWTToken (getSecretKey Option.none)
          ⟨2, "b@x.com", "general", "pw"⟩ 0) 0).2 = true := by
  decide

/-- C6 amended: the code performs no emptiness or entropy check on the
secret — GetSecretKey stores whatever the environment provides (empty when
JWT_SECRET is unset), and for every user and clock GenerateJWTToken issues
a token under the empty secret that VerifyJWTToken accepts. -/
theorem c6_empty_secret_no_fail_fast (u : User) (now : Int) :
    getSecretKey Option.none = "" ∧
      (verifyJWTToken (getSecretKey Option.none)
        (generateJWTToken (getSecretKey Option.none) u now) now).2 = true := by
  refine ⟨rfl, ?_⟩
  simp [getSecretKey, verifyJWTToken, generateJWTToken, parseToken, sigValid,
    claimsValid]

/-- C7 counterexample: an unknown-email login failure answers
(401, "Incorrect email or password") while a known-email wrong-password
failure answers (401, "Incorrect password") — the bodies differ, so the
two causes are distinguishable, contradicting the claim that the responses
are identical. -/
theorem c7_counterexample :
    (login Option.none "pw").1 = 401 ∧
      (login (some ⟨1, "a@x.com", "general", hashPassword "right"⟩) "wrong").1 = 401 ∧
      (login Option.none "pw").2 ≠
        (login (some ⟨1, "a@x.com", "general", hashPassword "right"⟩) "wrong").2 := by
  decide

/-- C7 amended: the two failure causes share the HTTP status 401 but the
response messages differ ("Incorrect email or password" for an unknown
email vs "Incorrect password" for a known email with a non-matching
password), so the client can tell them apart. -/
theorem c7_uniform_status_distinct_message (u : User) (pw pwOther : String)
    (h : verifyPassword pwOther u.Password = false) :
    (login Option.none pw).1 = (login (some u) pwOther).1 ∧
      (login Option.none pw).2 ≠ (login (some u) pwOther).2 := by
  simp [login, h]

theorem c7_uniform_status_distinct_message_witness :
    verifyPassword "wrong" (hashPassword "right") = false ∧
      ((login Option.none "pw").1 =
          (login (some ⟨1, "a@x.com", "general", hashPassword "right"⟩) "wrong").1 ∧
        (login Option.none "pw").2 ≠
          (login (some ⟨1, "a@x.com", "general", hashPassword "right"⟩) "wrong").2) :=
  ⟨by decide,
    c7_uniform_status_distinct_message ⟨1, "a@x.com", "general", hashPassword "right"⟩
      "pw" "wrong" (by decide)⟩

/-- C8 counterexample: with identical timestamp bytes and identical random
bytes, the tokens generated for emails "a@x" and "b@x" differ in their
non-random content, and base64-decoding the first token recovers the email
bytes "a@x" as its first three bytes — contradicting the claim that the
token binds no recoverable user data. -/
theorem c8_counterexample :
    generatePasswordResetToken [97, 64, 120] [48] (List.replicate 32 0) ≠
        generatePasswordResetToken [98, 64, 120] [48] (List.replicate 32 0) ∧
      (decodeB64 (generatePasswordResetToken [97, 64, 120] [48]
          (List.replicate 32 0))).take 3 = [97, 64, 120] := by
  decide

/-- C8 amended: the generated token is the URL-safe base64 encoding of the
user's email bytes, followed by the timestamp-string bytes, followed by
the 32 random bytes — so decoding any generated token recovers the email
and the non-random content differs between users with different emails. -/
theorem c8_token_reveals_email (emailBytes nowStrBytes randomBytes : List (Fin 256)) :
    decodeB64 (generatePasswordResetToken emailBytes nowStrBytes randomBytes) =
      (emailBytes ++ nowStrBytes ++ randomBytes).map Fin.val := by
  unfold generatePasswordResetToken
  exact decodeB64_encodeB64 _

/-- C9: ValidateJWTToken's keyfunc returns the secret as a Go string, not
the `[]byte` the HMAC verifier requires, so it fails for every token, every
secret and every clock; consequently ExtractClaims answers (nil, false) for
every Authorization header long enough to slice, whatever the underlying
parser yields. -/
theorem c9_validateJWTToken_always_fails (secret : String) (t : Token) (now : Int)
    (parse : String → Option Token) (header : String) (hlen : 7 ≤ header.length) :
    validateJWTToken secret t now = Option.none ∧
      extractClaims parse secret now header = Except.ok Option.none := by
  have hval : ∀ t' : Token, validateJWTToken secret t' now = Option.none := by
    intro t'
    simp [validateJWTToken, parseToken, sigValid]
  refine ⟨hval t, ?_⟩
  have hne : header ≠ "" := by
    intro he
    rw [he] at hlen
    simp at hlen
  rw [extractClaims, if_neg hne, if_pos hlen]
  cases parse (header.toList.drop 7).asString with
  | none => rfl
  | some t' => simp [hval]

theorem c9_validateJWTToken_always_fails_witness :
    7 ≤ ("Bearer x" : String).length ∧
      (validateJWTToken "s"
          ⟨Alg.HS256, ⟨1, "a@x.com", "general", 3600⟩,
            Sig.hmac Alg.HS256 ⟨1, "a@x.com", "general", 3600⟩ "s"⟩ 0 = Option.none ∧
        extractClaims (fun _ => Option.none) "s" 0 "Bearer x" =
          Except.ok Option.none) :=
  ⟨by decide,
    c9_validateJWTToken_always_fails "s"
      ⟨Alg.HS256, ⟨1, "a@x.com", "general", 3600⟩,
        Sig.hmac Alg.HS256 ⟨1, "a@x.com", "general", 3600⟩ "s"⟩ 0
      (fun _ => Option.none) "Bearer x" (by decide)⟩

/-- C10: every successfully stored sign-up gets Role "admin" exactly when
the submitted email is "gowithvikash@gmail.com", and Role "general" for
every other email. -/
theorem c10_signup_role (existingUser : Option User) (req : SignupRequest)
    (hashOk registerOk : Bool) (newId : Int) (u : User)
    (h : signUp existingUser req hashOk registerOk newId = some u) :
    (u.Role = "admin" ↔ req.Email = "gowithvikash@gmail.com") ∧
      (req.Email ≠ "gowithvikash@gmail.com" → u.Role = "general") := by
  cases existingUser with
  | some _ => simp [signUp] at h
  | none =>
    cases hashOk with
    | false => simp [signUp] at h
    | true =>
      cases registerOk with
      | false => simp [signUp] at h
      | true =>
        by_cases he : req.Email = "gowithvikash@gmail.com"
        · simp [signUp, he] at h
          rw [← h]
          simp [he]
        · simp [signUp, he] at h
          rw [← h]
          simp [he]

theorem c10_signup_role_witness :
    signUp Option.none ⟨"f", "l", "p", "someone@example.com", "pw"⟩ true true 5 =
        some ⟨5, "someone@example.com", "general", hashPassword "pw"⟩ ∧
      (((⟨5, "someone@example.com", "general", hashPassword "pw"⟩ : User).Role = "admin" ↔
          (⟨"f", "l", "p", "someone@example.com", "pw"⟩ : SignupRequest).Email =
            "gowithvikash@gmail.com") ∧
        ((⟨"f", "l", "p", "someone@example.com", "pw"⟩ : SignupRequest).Email ≠
            "gowithvikash@gmail.com" →
          (⟨5, "someone@example.com", "general", hashPassword "pw"⟩ : User).Role =
            "general")) :=
  ⟨by decide,
    c10_signup_role Option.none ⟨"f", "l", "p", "someone@example.com", "pw"⟩
      true true 5 ⟨5, "someone@example.com", "general", hashPassword "pw"⟩ (by decide)⟩

end GoServer
